/-
Verification of the vanitycal date-expansion and labeling engine.

The Go source represents instants as time.Time values; every date handled by the
program is a midnight-UTC calendar date, so the embedding represents an instant by
its integer day number (days since December 31 of year 0 in the proleptic Gregorian
calendar). daysFromCivil mirrors Go time.Date's normalization (months normalized by
floor division, overflowing days rolled forward linearly, never clamped); yearOf,
monthOf and dayOf recover the civil fields of a day number and dayNumber_roundtrip
proves the two directions agree. addDate mirrors time.Time.AddDate, and totalDaysGo
mirrors int(end.Sub(start).Hours() / 24) including the saturation of time.Duration
at roughly 106751 days. The program functions getAnniversaries, getCountdowns,
getDuration, getCountdownDuration, applyDefaults and the generateICal event loop are
translated from the source; the clock is modelled as a stream of samples, one per
time.Now() call, indexed in call order. Events carry their parsed date (Option Int)
or month-day pair, mirroring the validated string fields of the Go Event struct.
-/
import Mathlib

def isLeap (y : Int) : Bool := y % 4 == 0 && (y % 100 != 0 || y % 400 == 0)

def daysBeforeYear (y : Int) : Int :=
  365 * (y - 1) + (y - 1) / 4 - (y - 1) / 100 + (y - 1) / 400

def cumDays (m0 : Int) : Int :=
  if m0 ≤ 0 then 0 else if m0 = 1 then 31 else if m0 = 2 then 59 else if m0 = 3 then 90
  else if m0 = 4 then 120 else if m0 = 5 then 151 else if m0 = 6 then 181
  else if m0 = 7 then 212 else if m0 = 8 then 243 else if m0 = 9 then 273
  else if m0 = 10 then 304 else if m0 = 11 then 334 else 365

def daysFromCivil (y m d : Int) : Int :=
  daysBeforeYear (y + (m - 1) / 12) + cumDays ((m - 1) % 12) +
    (if isLeap (y + (m - 1) / 12) ∧ 2 ≤ (m - 1) % 12 then 1 else 0) + (d - 1)

def monthDayOfDoy (doy : Int) : Int × Int :=
  if doy < 31 then (1, doy + 1)
  else if doy < 59 then (2, doy - 30)
  else if doy < 90 then (3, doy - 58)
  else if doy < 120 then (4, doy - 89)
  else if doy < 151 then (5, doy - 119)
  else if doy < 181 then (6, doy - 150)
  else if doy < 212 then (7, doy - 180)
  else if doy < 243 then (8, doy - 211)
  else if doy < 273 then (9, doy - 242)
  else if doy < 304 then (10, doy - 272)
  else if doy < 334 then (11, doy - 303)
  else (12, doy - 333)

def yearOfEra (r : Int) : Int :=
  if r < daysBeforeYear (r / 365 + 1) then r / 365 else r / 365 + 1

def monthDayOf (r : Int) : Int × Int :=
  if isLeap (yearOfEra r) then
    if r - daysBeforeYear (yearOfEra r) = 59 then (2, 29)
    else if 59 < r - daysBeforeYear (yearOfEra r) then
      monthDayOfDoy (r - daysBeforeYear (yearOfEra r) - 1)
    else monthDayOfDoy (r - daysBeforeYear (yearOfEra r))
  else monthDayOfDoy (r - daysBeforeYear (yearOfEra r))

def yearOf (n : Int) : Int := 400 * (n / 146097) + yearOfEra (n % 146097)

def monthOf (n : Int) : Int := (monthDayOf (n % 146097)).1

def dayOf (n : Int) : Int := (monthDayOf (n % 146097)).2

def monthLength (y m : Int) : Int :=
  if m = 2 then 28 + (if isLeap y then 1 else 0)
  else if m = 4 ∨ m = 6 ∨ m = 9 ∨ m = 11 then 30 else 31

def leapv (y : Int) : Int := if isLeap y then 1 else 0

def gAux (y r : Int) : Int :=
  daysBeforeYear y + cumDays r + (if 2 ≤ r then leapv y else 0)

def monthStart (t : Int) : Int := gAux (t / 12) (t % 12)

def addDate (n yy mm dd : Int) : Int :=
  daysFromCivil (yearOf n + yy) (monthOf n + mm) (dayOf n + dd)

def monthIndex (n : Int) : Int := 12 * yearOf n + monthOf n - 1

def doyAdj (y m : Int) : Int := cumDays (m - 1) + (if 3 ≤ m then leapv y else 0)

structure Anniversary where
  years : List Int
  months : List Int
  days : List Int
deriving DecidableEq

def getAnniversaries (date : Int) (patterns : Anniversary) : List Int :=
  (patterns.days.map (fun d => if d = 0 then date else addDate date 0 0 d)) ++
    (patterns.months.map (fun m => addDate date 0 m 0)) ++
    (patterns.years.map (fun y => addDate date y 0 0))

def getCountdowns (targetDate : Int) (patterns : Anniversary) (today : Int) : List Int :=
  if targetDate < today ∨ targetDate = today then []
  else
    ((patterns.days.filter (fun d => !(d == 0))).map (fun d => addDate targetDate 0 0 (-d))).filter
        (fun c => today < c) ++
      ((patterns.months.map (fun m => addDate targetDate 0 (-m) 0)).filter (fun c => today < c)) ++
      ((patterns.years.map (fun y => addDate targetDate (-y) 0 0)).filter (fun c => today < c))

def totalDaysGo (s e : Int) : Int :=
  if 106751 < e - s then 106751 else if e - s < -106751 then -106751 else e - s

def durMilestone (totalDays : Int) : Option String :=
  if totalDays = 7 then some "7d"
  else if totalDays = 100 then some "100d"
  else if totalDays = 1000 then some "1000d"
  else if totalDays = 10000 then some "10000d"
  else none

def cdMilestone (totalDays : Int) : Option String :=
  if totalDays = 1 then some "D-1"
  else if totalDays = 2 then some "D-2"
  else if totalDays = 3 then some "D-3"
  else if totalDays = 5 then some "D-5"
  else if totalDays = 7 then some "D-7"
  else if totalDays = 10 then some "D-10"
  else if totalDays = 30 then some "D-30"
  else if totalDays = 60 then some "D-60"
  else if totalDays = 90 then some "D-90"
  else if totalDays = 100 then some "D-100"
  else if totalDays = 365 then some "D-365"
  else if totalDays = 1000 then some "D-1000"
  else none

def yearBranch (start e years : Int) : Option String :=
  if 0 < years then
    if addDate start years 0 0 = e then some (toString years ++ "y")
    else if monthOf start = 2 ∧ dayOf start = 29 ∧ monthOf e = 2 ∧ dayOf e = 28 ∧
        monthOf (addDate start years 0 0) = 3 ∧ dayOf (addDate start years 0 0) = 1 then
      some (toString years ++ "y")
    else none
  else none

def monthScan (start e bound : Int) : Option Int :=
  ((List.range bound.toNat).map (fun (i : Nat) => (i : Int) + 1)).find? (fun M => addDate start 0 M 0 == e)

def monthFmt (months : Int) : String :=
  if 12 ≤ months then
    if months % 12 = 0 then toString (months / 12) ++ "y"
    else toString (months / 12) ++ "y " ++ toString (months % 12) ++ "m"
  else toString months ++ "m"

def lastDayOfMonthBefore (e : Int) : Int :=
  dayOf (daysFromCivil (yearOf (addDate e 0 (-1) 0)) (monthOf (addDate e 0 (-1) 0) + 1) 0)

def decompose (start e : Int) : Int × Int × Int :=
  let years0 := yearOf e - yearOf start
  let months0 := monthOf e - monthOf start
  let days0 := dayOf e - dayOf start
  let years1 := if months0 < 0 then years0 - 1 else years0
  let months1 := if months0 < 0 then months0 + 12 else months0
  if days0 < 0 then
    let months2 := months1 - 1
    let years2 := if months2 < 0 then years1 - 1 else years1
    let months3 := if months2 < 0 then months2 + 12 else months2
    (years2, months3, days0 + lastDayOfMonthBefore e)
  else (years1, months1, days0)

def formatYMD (years months days : Int) : String :=
  if 0 < years ∧ months = 0 ∧ days = 0 then toString years ++ "y"
  else if 0 < years ∧ 0 < months ∧ days = 0 then toString years ++ "y " ++ toString months ++ "m"
  else if 0 < years ∧ 0 < days ∧ months = 0 then toString years ++ "y " ++ toString days ++ "d"
  else if 0 < months ∧ days = 0 then toString months ++ "m"
  else if 0 < months ∧ 0 < days ∧ years = 0 then toString months ++ "m " ++ toString days ++ "d"
  else if 0 < days then toString days ++ "d"
  else toString years ++ "y " ++ toString months ++ "m " ++ toString days ++ "d"

def getDuration (start e : Int) : String :=
  if e = start then "D-DAY"
  else
    match yearBranch start e (yearOf e - yearOf start) with
    | some s => s
    | none =>
      match monthScan start e ((yearOf e - yearOf start) * 12 + 12) with
      | some m => monthFmt m
      | none =>
        match durMilestone (totalDaysGo start e) with
        | some s => s
        | none => formatYMD (decompose start e).1 (decompose start e).2.1 (decompose start e).2.2

def getCountdownDuration (f t : Int) : String :=
  if f = t ∨ t < f then "D-DAY"
  else
    match cdMilestone (totalDaysGo f t) with
    | some s => s
    | none =>
      let years := (decompose f t).1
      let months := (decompose f t).2.1
      let days := (decompose f t).2.2
      if 0 < years ∧ months = 0 ∧ days = 0 then "D-" ++ toString years ++ "y"
      else if years = 0 ∧ 0 < months ∧ days = 0 then "D-" ++ toString months ++ "m"
      else if totalDaysGo f t < 30 then "D-" ++ toString (totalDaysGo f t)
      else if 0 < months + years * 12 ∧ months + years * 12 < 12 then
        "D-" ++ toString (months + years * 12) ++ "m"
      else if 12 ≤ months + years * 12 then "D-" ++ toString ((months + years * 12) / 12) ++ "y"
      else "D-" ++ toString (totalDaysGo f t)

structure Event where
  date : Option Int
  monthDay : Option (Int × Int)
  title : String
  description : String
deriving DecidableEq

structure Config where
  timezone : String
  calendarName : String
  anniversaries : Anniversary
  events : List Event
deriving DecidableEq

structure IcsEvent where
  uid : String
  summary : String
  description : String
  dtstart : String
deriving DecidableEq

def applyDefaults (config : Config) : Config :=
  { config with
    timezone := if config.timezone = "" then "Europe/Paris" else config.timezone,
    calendarName := if config.calendarName = "" then "VanityCal 💚" else config.calendarName,
    anniversaries :=
      { years := if config.anniversaries.years = [] then
            [1, 2, 3, 4, 5, 6, 7, 8, 9, 10, 15, 20, 25, 30, 35, 40, 45, 50]
          else config.anniversaries.years,
        months := if config.anniversaries.months = [] then [1, 2, 3, 6, 9]
          else config.anniversaries.months,
        days := if config.anniversaries.days = [] then [0, 7, 100, 1000, 10000]
          else config.anniversaries.days } }

def digitChar (i : Int) : Char := Char.ofNat (48 + i.toNat)

def pad2 (x : Int) : String :=
  if 0 ≤ x ∧ x < 100 then String.mk [digitChar (x / 10), digitChar (x % 10)]
  else toString x

def pad4Pos (x : Int) : String :=
  if x < 10000 then
    String.mk [digitChar (x / 1000), digitChar (x / 100 % 10), digitChar (x / 10 % 10),
      digitChar (x % 10)]
  else toString x

def pad4 (x : Int) : String := if x < 0 then "-" ++ pad4Pos (-x) else pad4Pos x

def formatYYYYMMDD (n : Int) : String := pad4 (yearOf n) ++ pad2 (monthOf n) ++ pad2 (dayOf n)

def annivEntry (title desc : String) (date anniv : Int) : IcsEvent :=
  { uid := "vanitycal-" ++ formatYYYYMMDD anniv,
    summary := title ++ " - " ++ getDuration date anniv ++ " 💚",
    description := desc,
    dtstart := formatYYYYMMDD anniv }

def countdownEntry (title desc : String) (countdown date : Int) : IcsEvent :=
  { uid := "vanitycal-countdown-" ++ formatYYYYMMDD countdown,
    summary := title ++ " - " ++ getCountdownDuration countdown date ++ " 💚",
    description := desc,
    dtstart := formatYYYYMMDD countdown }

def recurringEntry (title desc : String) (year month day : Int) : IcsEvent :=
  { uid := "vanitycal-recurring-" ++ toString year ++ pad2 month ++ pad2 day,
    summary := title ++ " 💚",
    description := desc,
    dtstart := formatYYYYMMDD (daysFromCivil year month day) }

def processEvents (patterns : Anniversary) (clock : Nat → Int) (currentYear : Int) :
    List Event → Nat → List IcsEvent
  | [], _ => []
  | e :: rest, i =>
    match e.date with
    | some d =>
      if clock i < d then
        ((getCountdowns d patterns (clock (i + 1))).map
            (fun c => countdownEntry e.title e.description c d)) ++
          ((getAnniversaries d patterns).map (fun a => annivEntry e.title e.description d a)) ++
          processEvents patterns clock currentYear rest (i + 2)
      else
        ((getAnniversaries d patterns).map (fun a => annivEntry e.title e.description d a)) ++
          processEvents patterns clock currentYear rest (i + 1)
    | none =>
      match e.monthDay with
      | some md =>
        ([-1, 0, 1].map (fun off =>
            recurringEntry e.title e.description (currentYear + off) md.1 md.2)) ++
          processEvents patterns clock currentYear rest i
      | none => processEvents patterns clock currentYear rest i

def generateICal (config : Config) (clock : Nat → Int) : List IcsEvent :=
  processEvents (applyDefaults config).anniversaries clock (yearOf (clock 1))
    (applyDefaults config).events 2

def reachesDecomposition (s e : Int) : Prop :=
  ¬ e = s ∧ yearBranch s e (yearOf e - yearOf s) = none ∧
    monthScan s e ((yearOf e - yearOf s) * 12 + 12) = none ∧
    durMilestone (totalDaysGo s e) = none

instance (s e : Int) : Decidable (reachesDecomposition s e) := by
  unfold reachesDecomposition
  infer_instance

def lastChar (s : String) : Option Char := s.data.getLast?

def processEventsSingleClock (patterns : Anniversary) (now : Int) (currentYear : Int) :
    List Event → List IcsEvent
  | [] => []
  | e :: rest =>
    match e.date with
    | some d =>
      if now < d then
        ((getCountdowns d patterns now).map
            (fun c => countdownEntry e.title e.description c d)) ++
          ((getAnniversaries d patterns).map (fun a => annivEntry e.title e.description d a)) ++
          processEventsSingleClock patterns now currentYear rest
      else
        ((getAnniversaries d patterns).map (fun a => annivEntry e.title e.description d a)) ++
          processEventsSingleClock patterns now currentYear rest
    | none =>
      match e.monthDay with
      | some md =>
        ([-1, 0, 1].map (fun off =>
            recurringEntry e.title e.description (currentYear + off) md.1 md.2)) ++
          processEventsSingleClock patterns now currentYear rest
      | none => processEventsSingleClock patterns now currentYear rest

def generateICalSingleClock (config : Config) (now : Int) : List IcsEvent :=
  processEventsSingleClock (applyDefaults config).anniversaries now (yearOf now)
    (applyDefaults config).events

def c4Config : Config :=
  { timezone := "UTC", calendarName := "C",
    anniversaries := { years := [1], months := [1], days := [1] },
    events := [{ date := some (daysFromCivil 2030 1 1), monthDay := none, title := "T",
                 description := "" }] }

def c3Event : Event :=
  { date := some (daysFromCivil 2030 1 1), monthDay := none, title := "T", description := "" }

def c3Config : Config :=
  { timezone := "UTC", calendarName := "C",
    anniversaries := { years := [1], months := [1], days := [1] },
    events := [c3Event] }

def c9Event : Event := { date := none, monthDay := some (2, 29), title := "Leap",
                         description := "" }

def c9Config : Config :=
  { timezone := "", calendarName := "",
    anniversaries := { years := [1], months := [1], days := [1] },
    events := [c9Event] }

def c5Config : Config :=
  { timezone := "", calendarName := "",
    anniversaries := { years := [1], months := [1], days := [0] },
    events := [{ date := some (daysFromCivil 2023 1 1), monthDay := none, title := "A",
                 description := "" },
               { date := some (daysFromCivil 2023 1 1), monthDay := none, title := "B",
                 description := "" }] }

-- concrete sanity
lemma fidelityCheck1 : daysFromCivil 2023 1 1 = 738520 := by decide

lemma fidelityCheck2 : yearOf 738520 = 2023 ∧ monthOf 738520 = 1 ∧ dayOf 738520 = 1 := by decide

lemma fidelityCheck3 : daysFromCivil 2020 2 29 = daysFromCivil 2020 3 1 - 1 := by decide

lemma fidelityCheck4 : yearOf (daysFromCivil 2021 2 29) = 2021 ∧ monthOf (daysFromCivil 2021 2 29) = 3 ∧
    dayOf (daysFromCivil 2021 2 29) = 1 := by decide

-- sanity checks mirroring the repository's TestGetDuration table
lemma fidelityCheck5 : getDuration (daysFromCivil 2023 1 1) (daysFromCivil 2023 1 1) = "D-DAY" := by decide

lemma fidelityCheck6 : getDuration (daysFromCivil 2023 1 1) (daysFromCivil 2023 1 8) = "7d" := by decide

lemma fidelityCheck7 : getDuration (daysFromCivil 2023 1 1) (daysFromCivil 2023 2 1) = "1m" := by decide

lemma fidelityCheck8 : getDuration (daysFromCivil 2023 1 1) (daysFromCivil 2024 1 1) = "1y" := by decide

lemma fidelityCheck9 : getDuration (daysFromCivil 2023 1 1) (daysFromCivil 2025 4 1) = "2y 3m" := by decide

lemma fidelityCheck10 : getDuration (daysFromCivil 2023 1 1) (daysFromCivil 2024 1 16) = "1y 15d" := by decide

lemma fidelityCheck11 : getDuration (daysFromCivil 2023 1 1) (daysFromCivil 2023 7 11) = "6m 10d" := by decide

lemma fidelityCheck12 : getDuration (daysFromCivil 2023 1 1) (daysFromCivil 2023 4 11) = "100d" := by decide

lemma fidelityCheck13 : getDuration (daysFromCivil 2020 2 29) (daysFromCivil 2021 2 28) = "1y" := by decide

lemma fidelityCheck14 : getDuration (daysFromCivil 2023 1 31) (daysFromCivil 2023 2 28) = "28d" := by decide

lemma fidelityCheck15 : getDuration (daysFromCivil 2022 12 31) (daysFromCivil 2023 1 1) = "1d" := by decide

lemma fidelityCheck16 : getCountdownDuration (daysFromCivil 2024 1 1) (daysFromCivil 2024 2 1) = "D-1m" := by
  decide

lemma fidelityCheck17 : getCountdownDuration (daysFromCivil 2024 1 2) (daysFromCivil 2024 1 1) = "D-DAY" := by
  decide

lemma fidelityCheck18 : getDuration (daysFromCivil 2020 1 1) (daysFromCivil 2021 2 2) = "1d" := by decide

lemma fidelityCheck19 : getDuration (daysFromCivil 2024 1 1) (daysFromCivil 2023 1 1) = "-1y 0m 0d" := by decide

lemma fidelityCheck20 : getDuration (daysFromCivil 2024 1 1) (daysFromCivil 2023 6 1) = "5m" := by decide

lemma fidelityCheck21 : formatYYYYMMDD (daysFromCivil 2023 1 1) = "20230101" := by decide

lemma fidelityCheck22 :
    generateICal
      { timezone := "UTC", calendarName := "Test",
        anniversaries := { years := [1], months := [1], days := [0] },
        events := [{ date := some (daysFromCivil 2023 1 1), monthDay := none,
                     title := "Test Event", description := "Test Description" }] }
      (fun _ => daysFromCivil 2024 6 1) =
    [annivEntry "Test Event" "Test Description" (daysFromCivil 2023 1 1) (daysFromCivil 2023 1 1),
     annivEntry "Test Event" "Test Description" (daysFromCivil 2023 1 1) (daysFromCivil 2023 2 1),
     annivEntry "Test Event" "Test Description" (daysFromCivil 2023 1 1)
       (daysFromCivil 2024 1 1)] := by decide

lemma fidelityCheck23 :
    ((generateICal
      { timezone := "UTC", calendarName := "Test",
        anniversaries := { years := [1], months := [1], days := [0] },
        events := [{ date := some (daysFromCivil 2023 1 1), monthDay := none,
                     title := "Test Event", description := "Test Description" }] }
      (fun _ => daysFromCivil 2024 6 1)).map (fun ev => ev.summary)) =
    ["Test Event - D-DAY 💚", "Test Event - 1m 💚", "Test Event - 1y 💚"] := by decide

lemma isLeap_iff (y : Int) : isLeap y = true ↔ (y % 4 = 0 ∧ (y % 100 ≠ 0 ∨ y % 400 = 0)) := by
  simp [isLeap, Bool.and_eq_true, Bool.or_eq_true, beq_iff_eq, bne_iff_ne]

lemma daysBeforeYear_succ (y : Int) :
    daysBeforeYear (y + 1) = daysBeforeYear y + 365 + (if isLeap y then 1 else 0) := by
  have h := isLeap_iff y
  unfold daysBeforeYear
  by_cases hl : isLeap y
  · rw [if_pos hl]
    have h2 := h.mp hl
    omega
  · rw [if_neg hl]
    have h2 : ¬ (y % 4 = 0 ∧ (y % 100 ≠ 0 ∨ y % 400 = 0)) := fun hc => hl (h.mpr hc)
    omega

lemma yearOfEra_spec (r : Int) (h0 : 0 ≤ r) (h1 : r < 146097) :
    1 ≤ yearOfEra r ∧ yearOfEra r ≤ 400 ∧ daysBeforeYear (yearOfEra r) ≤ r ∧
      r < daysBeforeYear (yearOfEra r + 1) := by
  unfold yearOfEra daysBeforeYear
  split <;> omega

lemma isLeap_congr (a b : Int) (h : a % 400 = b % 400) : isLeap a = isLeap b := by
  have h4 : a % 4 = b % 4 := by omega
  have h100 : a % 100 = b % 100 := by omega
  unfold isLeap
  rw [h4, h100, h]

lemma isLeap_periodic (k y : Int) : isLeap (400 * k + y) = isLeap y :=
  isLeap_congr _ _ (by omega)

lemma daysBeforeYear_periodic (k y : Int) :
    daysBeforeYear (400 * k + y) = 146097 * k + daysBeforeYear y := by
  unfold daysBeforeYear
  omega

lemma daysFromCivil_periodic (k y m d : Int) :
    daysFromCivil (400 * k + y) m d = 146097 * k + daysFromCivil y m d := by
  unfold daysFromCivil
  rw [show 400 * k + y + (m - 1) / 12 = 400 * k + (y + (m - 1) / 12) by ring]
  rw [daysBeforeYear_periodic, isLeap_periodic]
  ring

lemma monthLength_periodic (k y m : Int) :
    monthLength (400 * k + y) m = monthLength y m := by
  unfold monthLength
  rw [isLeap_periodic]

lemma cd0 : cumDays 0 = 0 := rfl

lemma cd1 : cumDays 1 = 31 := rfl

lemma cd2 : cumDays 2 = 59 := rfl

lemma cd3 : cumDays 3 = 90 := rfl

lemma cd4 : cumDays 4 = 120 := rfl

lemma cd5 : cumDays 5 = 151 := rfl

lemma cd6 : cumDays 6 = 181 := rfl

lemma cd7 : cumDays 7 = 212 := rfl

lemma cd8 : cumDays 8 = 243 := rfl

lemma cd9 : cumDays 9 = 273 := rfl

lemma cd10 : cumDays 10 = 304 := rfl

lemma cd11 : cumDays 11 = 334 := rfl

lemma cd12 : cumDays 12 = 365 := rfl

set_option maxHeartbeats 1000000 in
lemma monthDayOfDoy_spec (doy : Int) (h0 : 0 ≤ doy) (h1 : doy ≤ 364) :
    1 ≤ (monthDayOfDoy doy).1 ∧ (monthDayOfDoy doy).1 ≤ 12 ∧
    1 ≤ (monthDayOfDoy doy).2 ∧
    (monthDayOfDoy doy).2 ≤ cumDays (monthDayOfDoy doy).1 - cumDays ((monthDayOfDoy doy).1 - 1) ∧
    cumDays ((monthDayOfDoy doy).1 - 1) + ((monthDayOfDoy doy).2 - 1) = doy ∧
    (2 ≤ (monthDayOfDoy doy).1 - 1 ↔ 59 ≤ doy) := by
  unfold monthDayOfDoy
  split_ifs <;>
    · dsimp only
      norm_num [cd0, cd1, cd2, cd3, cd4, cd5, cd6, cd7, cd8, cd9, cd10, cd11, cd12]
      omega

lemma cumdiff_le_monthLength (y m : Int) (h1 : 1 ≤ m) (h2 : m ≤ 12) :
    cumDays m - cumDays (m - 1) ≤ monthLength y m := by
  interval_cases m <;>
    norm_num [monthLength, cd0, cd1, cd2, cd3, cd4, cd5, cd6, cd7, cd8, cd9, cd10, cd11, cd12] <;>
    (try split) <;> omega

lemma era_spec (r : Int) (h0 : 0 ≤ r) (h1 : r < 146097) :
    1 ≤ (monthDayOf r).1 ∧ (monthDayOf r).1 ≤ 12 ∧ 1 ≤ (monthDayOf r).2 ∧
    (monthDayOf r).2 ≤ monthLength (yearOfEra r) (monthDayOf r).1 ∧
    daysFromCivil (yearOfEra r) (monthDayOf r).1 (monthDayOf r).2 = r := by
  obtain ⟨hy1, hy2, hylo, hyhi⟩ := yearOfEra_spec r h0 h1
  have hYG := daysBeforeYear_succ (yearOfEra r)
  unfold monthDayOf
  split_ifs with hl h59 hgt
  · -- leap year, doy = 59 : February 29
    rw [if_pos hl] at hYG
    have hml : monthLength (yearOfEra r) 2 = 29 := by simp [monthLength, hl]
    refine ⟨by norm_num, by norm_num, by norm_num, by rw [hml], ?_⟩
    unfold daysFromCivil
    norm_num [cd1]
    omega
  · -- leap year, doy > 59
    rw [if_pos hl] at hYG
    obtain ⟨g1, g2, g3, g4, g5, g6⟩ := monthDayOfDoy_spec (r - daysBeforeYear (yearOfEra r) - 1)
      (by omega) (by omega)
    have hm3 : 2 ≤ (monthDayOfDoy (r - daysBeforeYear (yearOfEra r) - 1)).1 - 1 := g6.mpr (by omega)
    refine ⟨g1, g2, g3, le_trans g4 (cumdiff_le_monthLength _ _ g1 g2), ?_⟩
    unfold daysFromCivil
    have e1 : ((monthDayOfDoy (r - daysBeforeYear (yearOfEra r) - 1)).1 - 1) / 12 = 0 := by omega
    have e2 : ((monthDayOfDoy (r - daysBeforeYear (yearOfEra r) - 1)).1 - 1) % 12 =
        (monthDayOfDoy (r - daysBeforeYear (yearOfEra r) - 1)).1 - 1 := by omega
    rw [e1, e2, add_zero, if_pos ⟨hl, hm3⟩]
    omega
  · -- leap year, doy < 59
    rw [if_pos hl] at hYG
    obtain ⟨g1, g2, g3, g4, g5, g6⟩ := monthDayOfDoy_spec (r - daysBeforeYear (yearOfEra r))
      (by omega) (by omega)
    have hm2 : ¬ 2 ≤ (monthDayOfDoy (r - daysBeforeYear (yearOfEra r))).1 - 1 := by
      intro hc
      have h2 := g6.mp hc
      omega
    refine ⟨g1, g2, g3, le_trans g4 (cumdiff_le_monthLength _ _ g1 g2), ?_⟩
    unfold daysFromCivil
    have e1 : ((monthDayOfDoy (r - daysBeforeYear (yearOfEra r))).1 - 1) / 12 = 0 := by omega
    have e2 : ((monthDayOfDoy (r - daysBeforeYear (yearOfEra r))).1 - 1) % 12 =
        (monthDayOfDoy (r - daysBeforeYear (yearOfEra r))).1 - 1 := by omega
    rw [e1, e2, add_zero, if_neg (fun hc => hm2 hc.2)]
    omega
  · -- non-leap year
    rw [if_neg hl] at hYG
    obtain ⟨g1, g2, g3, g4, g5, g6⟩ := monthDayOfDoy_spec (r - daysBeforeYear (yearOfEra r))
      (by omega) (by omega)
    refine ⟨g1, g2, g3, le_trans g4 (cumdiff_le_monthLength _ _ g1 g2), ?_⟩
    unfold daysFromCivil
    have e1 : ((monthDayOfDoy (r - daysBeforeYear (yearOfEra r))).1 - 1) / 12 = 0 := by omega
    have e2 : ((monthDayOfDoy (r - daysBeforeYear (yearOfEra r))).1 - 1) % 12 =
        (monthDayOfDoy (r - daysBeforeYear (yearOfEra r))).1 - 1 := by omega
    rw [e1, e2, add_zero, if_neg (fun hc => absurd hc.1 hl)]
    omega

theorem dayNumber_roundtrip (n : Int) :
    1 ≤ monthOf n ∧ monthOf n ≤ 12 ∧ 1 ≤ dayOf n ∧
    dayOf n ≤ monthLength (yearOf n) (monthOf n) ∧
    daysFromCivil (yearOf n) (monthOf n) (dayOf n) = n := by
  have h0 : 0 ≤ n % 146097 := by omega
  have h1 : n % 146097 < 146097 := by omega
  obtain ⟨g1, g2, g3, g4, g5⟩ := era_spec (n % 146097) h0 h1
  unfold yearOf monthOf dayOf
  refine ⟨g1, g2, g3, ?_, ?_⟩
  · rw [monthLength_periodic]
    exact g4
  · rw [daysFromCivil_periodic, g5]
    omega

lemma leapv_bound (y : Int) : 0 ≤ leapv y ∧ leapv y ≤ 1 := by
  unfold leapv; split <;> omega

lemma daysBeforeYear_succ' (y : Int) :
    daysBeforeYear (y + 1) = daysBeforeYear y + 365 + leapv y := daysBeforeYear_succ y

lemma leapWindow (a : Int) : leapv a + leapv (a + 1) + leapv (a + 2) + leapv (a + 3) ≤ 1 := by
  unfold leapv
  simp only [isLeap_iff]
  split_ifs <;> omega

lemma gAux_eq (y r : Int) :
    gAux y r = daysBeforeYear y + cumDays r + (if isLeap y ∧ 2 ≤ r then 1 else 0) := by
  unfold gAux leapv
  by_cases h2 : 2 ≤ r
  · by_cases hl : isLeap y
    · rw [if_pos h2, if_pos hl, if_pos ⟨hl, h2⟩]
    · rw [if_pos h2, if_neg hl, if_neg (fun hc => hl hc.1)]
  · rw [if_neg h2, if_neg (fun hc => h2 hc.2)]

lemma daysFromCivil_monthStart (y m d : Int) :
    daysFromCivil y m d = monthStart (12 * y + m - 1) + (d - 1) := by
  unfold monthStart daysFromCivil
  rw [gAux_eq]
  have e1 : (12 * y + m - 1) / 12 = y + (m - 1) / 12 := by omega
  have e2 : (12 * y + m - 1) % 12 = (m - 1) % 12 := by omega
  rw [e1, e2]

lemma monthLen_aux (y r : Int) (h0 : 0 ≤ r) (h1 : r ≤ 10) :
    28 ≤ gAux y (r + 1) - gAux y r ∧ gAux y (r + 1) - gAux y r ≤ 31 := by
  have hb := leapv_bound y
  unfold gAux
  interval_cases r <;>
    norm_num [cd0, cd1, cd2, cd3, cd4, cd5, cd6, cd7, cd8, cd9, cd10, cd11, cd12] <;>
    omega

lemma monthLen_dec (y : Int) : gAux (y + 1) 0 - gAux y 11 = 31 := by
  have hs := daysBeforeYear_succ' y
  have hb := leapv_bound y
  unfold gAux
  rw [if_neg (by norm_num : ¬ (2:Int) ≤ 0), if_pos (by norm_num : (2:Int) ≤ 11), cd0, cd11]
  omega

lemma monthStart_succ (t : Int) :
    28 ≤ monthStart (t + 1) - monthStart t ∧ monthStart (t + 1) - monthStart t ≤ 31 := by
  unfold monthStart
  by_cases h : t % 12 ≤ 10
  · rw [show (t + 1) / 12 = t / 12 by omega, show (t + 1) % 12 = t % 12 + 1 by omega]
    exact monthLen_aux (t / 12) (t % 12) (by omega) h
  · rw [show (t + 1) / 12 = t / 12 + 1 by omega, show (t + 1) % 12 = 0 by omega,
      show t % 12 = 11 by omega]
    rw [monthLen_dec (t / 12)]
    norm_num

lemma span12_aux (y r : Int) :
    365 ≤ gAux (y + 1) r - gAux y r ∧ gAux (y + 1) r - gAux y r ≤ 366 := by
  have hs := daysBeforeYear_succ' y
  have hb0 := leapv_bound y
  have hb1 := leapv_bound (y + 1)
  unfold gAux
  split_ifs <;> omega

lemma monthStart_12 (t : Int) :
    365 ≤ monthStart (t + 12) - monthStart t ∧ monthStart (t + 12) - monthStart t ≤ 366 := by
  unfold monthStart
  rw [show (t + 12) / 12 = t / 12 + 1 by omega, show (t + 12) % 12 = t % 12 by omega]
  exact span12_aux (t / 12) (t % 12)

lemma span48_aux (y r : Int) :
    1460 ≤ gAux (y + 4) r - gAux y r ∧ gAux (y + 4) r - gAux y r ≤ 1461 := by
  have h0 := daysBeforeYear_succ' y
  have h1 := daysBeforeYear_succ' (y + 1)
  have h2 := daysBeforeYear_succ' (y + 2)
  have h3 := daysBeforeYear_succ' (y + 3)
  rw [show y + 1 + 1 = y + 2 by ring] at h1
  rw [show y + 2 + 1 = y + 3 by ring] at h2
  rw [show y + 3 + 1 = y + 4 by ring] at h3
  have hw0 := leapWindow y
  have hw1 := leapWindow (y + 1)
  rw [show y + 1 + 1 = y + 2 by ring, show y + 1 + 2 = y + 3 by ring,
    show y + 1 + 3 = y + 4 by ring] at hw1
  have hb0 := leapv_bound y
  have hb1 := leapv_bound (y + 1)
  have hb2 := leapv_bound (y + 2)
  have hb3 := leapv_bound (y + 3)
  have hb4 := leapv_bound (y + 4)
  unfold gAux
  split_ifs <;> omega

lemma monthStart_48 (t : Int) :
    1460 ≤ monthStart (t + 48) - monthStart t ∧ monthStart (t + 48) - monthStart t ≤ 1461 := by
  unfold monthStart
  rw [show (t + 48) / 12 = t / 12 + 4 by omega, show (t + 48) % 12 = t % 12 by omega]
  exact span48_aux (t / 12) (t % 12)

lemma monthStart_span (t : Int) : ∀ (k : Int), 0 ≤ k →
    28 * k ≤ monthStart (t + k) - monthStart t ∧ monthStart (t + k) - monthStart t ≤ 31 * k := by
  refine Int.le_induction ?_ ?_
  · norm_num
  · intro n hn ih
    have h1 := monthStart_succ (t + n)
    rw [show t + (n + 1) = t + n + 1 by ring]
    obtain ⟨ih1, ih2⟩ := ih
    obtain ⟨hs1, hs2⟩ := h1
    constructor <;> omega

lemma monthStart_span12 (t : Int) : ∀ (k : Int), 0 ≤ k →
    365 * k ≤ monthStart (t + 12 * k) - monthStart t ∧
      monthStart (t + 12 * k) - monthStart t ≤ 366 * k := by
  refine Int.le_induction ?_ ?_
  · norm_num
  · intro n hn ih
    have h1 := monthStart_12 (t + 12 * n)
    rw [show t + 12 * (n + 1) = t + 12 * n + 12 by ring]
    obtain ⟨ih1, ih2⟩ := ih
    obtain ⟨hs1, hs2⟩ := h1
    constructor <;> omega

lemma monthStart_span48 (t : Int) : ∀ (k : Int), 0 ≤ k →
    1460 * k ≤ monthStart (t + 48 * k) - monthStart t ∧
      monthStart (t + 48 * k) - monthStart t ≤ 1461 * k := by
  refine Int.le_induction ?_ ?_
  · norm_num
  · intro n hn ih
    have h1 := monthStart_48 (t + 48 * n)
    rw [show t + 48 * (n + 1) = t + 48 * n + 48 by ring]
    obtain ⟨ih1, ih2⟩ := ih
    obtain ⟨hs1, hs2⟩ := h1
    constructor <;> omega

lemma daysBeforeYear_span (y : Int) : ∀ (k : Int), 0 ≤ k →
    365 * k ≤ daysBeforeYear (y + k) - daysBeforeYear y ∧
      daysBeforeYear (y + k) - daysBeforeYear y ≤ 366 * k := by
  refine Int.le_induction ?_ ?_
  · norm_num
  · intro n hn ih
    have h1 := daysBeforeYear_succ' (y + n)
    have h2 := leapv_bound (y + n)
    rw [show y + (n + 1) = y + n + 1 by ring]
    obtain ⟨ih1, ih2⟩ := ih
    constructor <;> omega

lemma monthStart_mono (t u : Int) (h : t ≤ u) : monthStart t ≤ monthStart u := by
  have h1 := (monthStart_span t (u - t) (by omega)).1
  rw [show t + (u - t) = u by ring] at h1
  omega

theorem monthSpan_not_milestone (t M : Int) (hM : 1 ≤ M) :
    monthStart (t + M) - monthStart t ≠ 7 ∧
    monthStart (t + M) - monthStart t ≠ 100 ∧
    monthStart (t + M) - monthStart t ≠ 1000 ∧
    monthStart (t + M) - monthStart t ≠ 10000 := by
  have hlow := monthStart_span t M (by omega)
  refine ⟨by omega, ?_, ?_, ?_⟩
  · -- 100 : at most 3 months is ≤ 93, at least 4 months is ≥ 112
    by_cases h4 : M ≤ 3
    · omega
    · have hmono := monthStart_mono (t + 4) (t + M) (by omega)
      have h44 := monthStart_span t 4 (by omega)
      omega
  · -- 1000 : at most 32 months is ≤ 980, at least 33 months is ≥ 1002
    by_cases h32 : M ≤ 32
    · have hmono := monthStart_mono (t + M) (t + 32) (by omega)
      have ha := monthStart_span12 t 2 (by omega)
      have hb := monthStart_span (t + 24) 8 (by omega)
      rw [show t + 24 + 8 = t + 32 by ring] at hb
      norm_num at ha
      omega
    · have hmono := monthStart_mono (t + 33) (t + M) (by omega)
      have ha := monthStart_span12 t 2 (by omega)
      have hb := monthStart_span12 (t + 24) 1 (by omega)
      have hc := monthStart_span (t + 33) 3 (by omega)
      rw [show t + 24 + 12 * 1 = t + 33 + 3 by ring] at hb
      norm_num at ha
      omega
  · -- 10000 : at most 328 months is ≤ 9988, at least 329 months is ≥ 10003
    by_cases h328 : M ≤ 328
    · have hmono := monthStart_mono (t + M) (t + 328) (by omega)
      have ha := monthStart_span48 t 6 (by omega)
      have hb := monthStart_span12 (t + 288) 3 (by omega)
      have hc := monthStart_span (t + 324) 4 (by omega)
      rw [show t + 48 * 6 = t + 288 by ring] at ha
      rw [show t + 288 + 12 * 3 = t + 324 by ring] at hb
      rw [show t + 324 + 4 = t + 328 by ring] at hc
      omega
    · have hmono := monthStart_mono (t + 329) (t + M) (by omega)
      have ha := monthStart_span48 t 6 (by omega)
      have hb := monthStart_span12 (t + 288) 3 (by omega)
      have hc := monthStart_span12 (t + 324) 1 (by omega)
      have hd := monthStart_span (t + 329) 7 (by omega)
      rw [show t + 48 * 6 = t + 288 by ring] at ha
      rw [show t + 288 + 12 * 3 = t + 324 by ring] at hb
      rw [show t + 324 + 12 * 1 = t + 329 + 7 by ring] at hc
      omega

lemma monthLength_bounds (y m : Int) : 28 ≤ monthLength y m ∧ monthLength y m ≤ 31 := by
  unfold monthLength
  split_ifs <;> omega

lemma daysFromCivil_bracket (y m d : Int) (hm1 : 1 ≤ m) (hm2 : m ≤ 12) (hd1 : 1 ≤ d)
    (hd2 : d ≤ 31) :
    daysBeforeYear y ≤ daysFromCivil y m d ∧ daysFromCivil y m d < daysBeforeYear (y + 1) := by
  have hs := daysBeforeYear_succ' y
  have hb := leapv_bound y
  unfold daysFromCivil
  rw [show (m - 1) / 12 = 0 by omega, show (m - 1) % 12 = m - 1 by omega, add_zero]
  have hcum : 0 ≤ cumDays (m - 1) ∧ cumDays (m - 1) ≤ 334 := by
    interval_cases m <;>
      norm_num [cd0, cd1, cd2, cd3, cd4, cd5, cd6, cd7, cd8, cd9, cd10, cd11]
  split_ifs with hcond
  · have hl : leapv y = 1 := by unfold leapv; rw [if_pos hcond.1]
    omega
  · omega

lemma daysBeforeYear_mono (y z : Int) (h : y ≤ z) : daysBeforeYear y ≤ daysBeforeYear z := by
  have h1 := (daysBeforeYear_span y (z - y) (by omega)).1
  rw [show y + (z - y) = z by ring] at h1
  omega

lemma yearOf_unique (n y : Int) (h1 : daysBeforeYear y ≤ n) (h2 : n < daysBeforeYear (y + 1)) :
    yearOf n = y := by
  obtain ⟨g1, g2, g3, g4, g5⟩ := dayNumber_roundtrip n
  have hml := monthLength_bounds (yearOf n) (monthOf n)
  have hb := daysFromCivil_bracket (yearOf n) (monthOf n) (dayOf n) g1 g2 g3 (le_trans g4 hml.2)
  rw [g5] at hb
  by_contra hne
  rcases lt_or_gt_of_ne hne with hlt | hgt
  · have hmono := daysBeforeYear_mono (yearOf n + 1) y (by omega)
    omega
  · have hmono := daysBeforeYear_mono (y + 1) (yearOf n) (by omega)
    omega

lemma yearOf_daysFromCivil (y m d : Int) (hm1 : 1 ≤ m) (hm2 : m ≤ 12) (hd1 : 1 ≤ d)
    (hd2 : d ≤ 31) : yearOf (daysFromCivil y m d) = y :=
  yearOf_unique _ _ (daysFromCivil_bracket y m d hm1 hm2 hd1 hd2).1
    (daysFromCivil_bracket y m d hm1 hm2 hd1 hd2).2

lemma self_eq_monthStart (n : Int) : monthStart (monthIndex n) + (dayOf n - 1) = n := by
  rw [monthIndex, ← daysFromCivil_monthStart]
  exact (dayNumber_roundtrip n).2.2.2.2

lemma addDate_months_eq (n M : Int) :
    addDate n 0 M 0 = n + (monthStart (monthIndex n + M) - monthStart (monthIndex n)) := by
  unfold addDate
  rw [add_zero, add_zero, daysFromCivil_monthStart]
  have h := self_eq_monthStart n
  rw [show 12 * yearOf n + (monthOf n + M) - 1 = monthIndex n + M by rw [monthIndex]; ring]
  omega

lemma addDate_years_eq (n Y : Int) :
    addDate n Y 0 0 = n + (monthStart (monthIndex n + 12 * Y) - monthStart (monthIndex n)) := by
  unfold addDate
  rw [add_zero, add_zero, daysFromCivil_monthStart]
  have h := self_eq_monthStart n
  rw [show 12 * (yearOf n + Y) + monthOf n - 1 = monthIndex n + 12 * Y by rw [monthIndex]; ring]
  omega

lemma addDate_days_eq (n D : Int) : addDate n 0 0 D = n + D := by
  unfold addDate
  rw [add_zero, add_zero, daysFromCivil_monthStart]
  have h := self_eq_monthStart n
  rw [show 12 * yearOf n + monthOf n - 1 = monthIndex n from rfl]
  omega

lemma yearOf_addDate_years (n Y : Int) : yearOf (addDate n Y 0 0) = yearOf n + Y := by
  obtain ⟨g1, g2, g3, g4, _⟩ := dayNumber_roundtrip n
  have hml := monthLength_bounds (yearOf n) (monthOf n)
  unfold addDate
  rw [add_zero, add_zero]
  exact yearOf_daysFromCivil _ _ _ g1 g2 g3 (by omega)

lemma addDate_months_span (n M : Int) (h : 1 ≤ M) :
    n + 28 * M ≤ addDate n 0 M 0 ∧ addDate n 0 M 0 ≤ n + 31 * M := by
  rw [addDate_months_eq]
  have hs := monthStart_span (monthIndex n) M (by omega)
  omega

lemma addDate_neg_months_lt (n M : Int) (h : 1 ≤ M) : addDate n 0 (-M) 0 < n := by
  rw [addDate_months_eq]
  have hs := monthStart_span (monthIndex n + -M) M (by omega)
  rw [show monthIndex n + -M + M = monthIndex n by ring] at hs
  omega

lemma addDate_years_span (n Y : Int) (h : 1 ≤ Y) :
    n + 365 * Y ≤ addDate n Y 0 0 ∧ addDate n Y 0 0 ≤ n + 366 * Y := by
  rw [addDate_years_eq]
  have hs := monthStart_span12 (monthIndex n) Y (by omega)
  omega

lemma addDate_neg_years_lt (n Y : Int) (h : 1 ≤ Y) : addDate n (-Y) 0 0 < n := by
  rw [addDate_years_eq]
  have hs := monthStart_span12 (monthIndex n + 12 * -Y) Y (by omega)
  rw [show monthIndex n + 12 * -Y + 12 * Y = monthIndex n by ring] at hs
  omega

lemma daysFromCivil_doy (y m d : Int) (hm1 : 1 ≤ m) (hm2 : m ≤ 12) :
    daysFromCivil y m d = daysBeforeYear y + doyAdj y m + (d - 1) := by
  unfold daysFromCivil doyAdj leapv
  rw [show (m - 1) / 12 = 0 by omega, show (m - 1) % 12 = m - 1 by omega, add_zero]
  by_cases h3 : 3 ≤ m
  · by_cases hl : isLeap y
    · rw [if_pos ⟨hl, by omega⟩, if_pos h3, if_pos hl]
      ring
    · rw [if_neg (fun hc => hl hc.1), if_pos h3, if_neg hl]
      ring
  · have hn2 : ¬ (isLeap y = true ∧ 2 ≤ m - 1) := fun hc => h3 (by omega)
    rw [if_neg hn2, if_neg h3]
    ring

lemma doyAdj_mono (y a b : Int) (h1 : 1 ≤ a) (h2 : a ≤ b) (h3 : b ≤ 12) :
    doyAdj y a ≤ doyAdj y b := by
  have hb := leapv_bound y
  have h4 : a ≤ 12 := le_trans h2 h3
  unfold doyAdj
  interval_cases a <;> interval_cases b <;>
    norm_num [cd0, cd1, cd2, cd3, cd4, cd5, cd6, cd7, cd8, cd9, cd10, cd11] <;>
    omega

lemma doyAdj_step (y m : Int) (h1 : 1 ≤ m) (h2 : m ≤ 11) :
    doyAdj y (m + 1) = doyAdj y m + monthLength y m := by
  have hb := leapv_bound y
  unfold doyAdj monthLength leapv
  interval_cases m <;>
    norm_num [cd0, cd1, cd2, cd3, cd4, cd5, cd6, cd7, cd8, cd9, cd10, cd11] <;>
    split_ifs <;> omega

lemma civil_inj (y m d z M D : Int)
    (hm1 : 1 ≤ m) (hm2 : m ≤ 12) (hd1 : 1 ≤ d) (hd2 : d ≤ monthLength y m)
    (hM1 : 1 ≤ M) (hM2 : M ≤ 12) (hD1 : 1 ≤ D) (hD2 : D ≤ monthLength z M)
    (heq : daysFromCivil y m d = daysFromCivil z M D) : y = z ∧ m = M ∧ d = D := by
  have hmlb1 := monthLength_bounds y m
  have hmlb2 := monthLength_bounds z M
  have hyz : y = z := by
    have b1 := daysFromCivil_bracket y m d hm1 hm2 hd1 (by omega)
    have b2 := daysFromCivil_bracket z M D hM1 hM2 hD1 (by omega)
    have u1 := yearOf_unique _ _ b1.1 b1.2
    have u2 := yearOf_unique _ _ b2.1 b2.2
    rw [heq] at u1
    omega
  subst hyz
  rw [daysFromCivil_doy y m d hm1 hm2, daysFromCivil_doy y M D hM1 hM2] at heq
  have hdoy : doyAdj y m + (d - 1) = doyAdj y M + (D - 1) := by omega
  have hmM : m = M := by
    by_contra hne
    rcases lt_or_gt_of_ne hne with hlt | hgt
    · have hstep := doyAdj_step y m hm1 (by omega)
      have hmono := doyAdj_mono y (m + 1) M (by omega) (by omega) hM2
      omega
    · have hstep := doyAdj_step y M hM1 (by omega)
      have hmono := doyAdj_mono y (M + 1) m (by omega) (by omega) hm2
      omega
  subst hmM
  exact ⟨rfl, rfl, by omega⟩

lemma civil_roundtrip (y m d : Int) (hm1 : 1 ≤ m) (hm2 : m ≤ 12) (hd1 : 1 ≤ d)
    (hd2 : d ≤ monthLength y m) :
    yearOf (daysFromCivil y m d) = y ∧ monthOf (daysFromCivil y m d) = m ∧
      dayOf (daysFromCivil y m d) = d := by
  obtain ⟨g1, g2, g3, g4, g5⟩ := dayNumber_roundtrip (daysFromCivil y m d)
  obtain ⟨e1, e2, e3⟩ := civil_inj _ _ _ _ _ _ g1 g2 g3 g4 hm1 hm2 hd1 hd2 g5
  exact ⟨e1, e2, e3⟩

lemma durMilestone_some_vals (td : Int) (lbl : String) (h : durMilestone td = some lbl) :
    td = 7 ∨ td = 100 ∨ td = 1000 ∨ td = 10000 := by
  unfold durMilestone at h
  split_ifs at h <;> first | omega | exact Option.noConfusion h

set_option maxHeartbeats 1000000 in
lemma cdMilestone_some_pos (td : Int) (lbl : String) (h : cdMilestone td = some lbl) :
    0 < td ∧ td ≤ 1000 := by
  unfold cdMilestone at h
  split_ifs at h <;> first | omega | exact Option.noConfusion h

lemma totalDaysGo_small (s e v : Int) (h : totalDaysGo s e = v) (h2 : -106751 < v)
    (h3 : v < 106751) : e - s = v := by
  unfold totalDaysGo at h
  split_ifs at h <;> omega

lemma yearBranch_none_of_milestone (s e : Int)
    (hms : e - s = 7 ∨ e - s = 100 ∨ e - s = 1000 ∨ e - s = 10000) :
    yearBranch s e (yearOf e - yearOf s) = none := by
  unfold yearBranch
  by_cases hyc : 0 < yearOf e - yearOf s
  · rw [if_pos hyc]
    have h1 : ¬ (addDate s (yearOf e - yearOf s) 0 0 = e) := by
      intro hc
      have hspan := addDate_years_span s (yearOf e - yearOf s) (by omega)
      omega
    rw [if_neg h1]
    split_ifs with hchain
    · exfalso
      obtain ⟨hs2, hs29, he2, he28, -, -⟩ := hchain
      have hs' := self_eq_monthStart s
      have he' := self_eq_monthStart e
      rw [monthIndex, hs2, hs29] at hs'
      rw [monthIndex, he2, he28] at he'
      have hspan := monthStart_span12 (12 * yearOf s + 2 - 1) (yearOf e - yearOf s) (by omega)
      rw [show 12 * yearOf s + 2 - 1 + 12 * (yearOf e - yearOf s) = 12 * yearOf e + 2 - 1 by
        ring] at hspan
      omega
    · rfl
  · rw [if_neg hyc]

lemma monthScan_none_of_milestone (s e bound : Int)
    (hms : e - s = 7 ∨ e - s = 100 ∨ e - s = 1000 ∨ e - s = 10000) :
    monthScan s e bound = none := by
  unfold monthScan
  rw [List.find?_eq_none]
  intro M hM
  intro hc
  simp only [beq_iff_eq] at hc
  obtain ⟨i, hi, hieq⟩ := List.mem_map.mp hM
  have hieq2 : (i : Int) + 1 = M := hieq
  have h1M : 1 ≤ M := by omega
  have hspan := addDate_months_eq s M
  have hnot := monthSpan_not_milestone (monthIndex s) M h1M
  rw [hc] at hspan
  omega

/-- Claim C2: in both label functions, a milestone whole-day match always yields the
milestone label, taking precedence over exact calendar-unit matches and decomposition. -/
theorem spec_c2_milestone_precedence :
    (∀ (f t : Int) (lbl : String), cdMilestone (totalDaysGo f t) = some lbl →
        getCountdownDuration f t = lbl) ∧
    (∀ (s e : Int) (lbl : String), durMilestone (totalDaysGo s e) = some lbl →
        getDuration s e = lbl) := by
  constructor
  · intro f t lbl h
    have hpos := cdMilestone_some_pos _ _ h
    have hdiff := totalDaysGo_small f t (totalDaysGo f t) rfl (by omega) (by omega)
    unfold getCountdownDuration
    rw [if_neg (by omega : ¬ (f = t ∨ t < f)), h]
  · intro s e lbl h
    have hvals := durMilestone_some_vals _ _ h
    have hdiff := totalDaysGo_small s e (totalDaysGo s e) rfl (by omega) (by omega)
    have hms : e - s = 7 ∨ e - s = 100 ∨ e - s = 1000 ∨ e - s = 10000 := by omega
    have hne : ¬ (e = s) := by omega
    unfold getDuration
    rw [if_neg hne, yearBranch_none_of_milestone s e hms,
      monthScan_none_of_milestone s e _ hms, h]

/-- Claim C2 witness: the interval 2023-01-01 to 2024-01-01 is both an exact one-year
match and a 365-day countdown milestone, and the milestone label wins; 2023-01-01 to
2023-01-08 is the 7-day anniversary milestone. -/
theorem spec_c2_witness :
    getCountdownDuration (daysFromCivil 2023 1 1) (daysFromCivil 2024 1 1) = "D-365" ∧
    getDuration (daysFromCivil 2023 1 1) (daysFromCivil 2023 1 8) = "7d" := by
  constructor
  · exact spec_c2_milestone_precedence.1 _ _ _ (by decide)
  · exact spec_c2_milestone_precedence.2 _ _ _ (by decide)

/-- Claim C6: getAnniversaries concatenates the day, month and year shifted
occurrences in pattern order with no filtering, one entry per configured offset; on
the spec's scenario it yields the stated dates and labels. -/
theorem spec_c6_anniversary_expansion :
    (∀ (date : Int) (p : Anniversary),
        getAnniversaries date p =
          (p.days.map (fun d => if d = 0 then date else addDate date 0 0 d)) ++
            (p.months.map (fun m => addDate date 0 m 0)) ++
            (p.years.map (fun y => addDate date y 0 0)) ∧
        (getAnniversaries date p).length =
          p.days.length + p.months.length + p.years.length) ∧
    getAnniversaries (daysFromCivil 2023 1 1)
        { years := [1, 2], months := [1, 6], days := [0, 7, 100] } =
      [daysFromCivil 2023 1 1, daysFromCivil 2023 1 8, daysFromCivil 2023 4 11,
        daysFromCivil 2023 2 1, daysFromCivil 2023 7 1, daysFromCivil 2024 1 1,
        daysFromCivil 2025 1 1] ∧
    (getAnniversaries (daysFromCivil 2023 1 1)
          { years := [1, 2], months := [1, 6], days := [0, 7, 100] }).map
        (getDuration (daysFromCivil 2023 1 1)) =
      ["D-DAY", "7d", "100d", "1m", "6m", "1y", "2y"] := by
  refine ⟨fun date p => ⟨rfl, ?_⟩, by decide, by decide⟩
  simp only [getAnniversaries, List.length_append, List.length_map]

/-- Claim C8: adding Y calendar years to any date yields the exact-year label, and the
Feb 29 to Feb 28 leap exception also yields the exact-year label. -/
theorem spec_c8_exact_year :
    (∀ (n Y : Int), 0 < Y → getDuration n (addDate n Y 0 0) = toString Y ++ "y") ∧
    getDuration (daysFromCivil 2020 2 29) (daysFromCivil 2021 2 28) = "1y" := by
  constructor
  · intro n Y hY
    have hspan := addDate_years_span n Y (by omega)
    have hne : ¬ (addDate n Y 0 0 = n) := by omega
    have hyc : yearOf (addDate n Y 0 0) - yearOf n = Y := by
      rw [yearOf_addDate_years]
      ring
    have hyb : yearBranch n (addDate n Y 0 0) (yearOf (addDate n Y 0 0) - yearOf n) =
        some (toString Y ++ "y") := by
      rw [hyc]
      unfold yearBranch
      rw [if_pos hY, if_pos rfl]
    unfold getDuration
    rw [if_neg hne, hyb]
  · decide

/-- Claim C8 witness: one year after 2023-01-01 is labelled 1y. -/
theorem spec_c8_witness :
    getDuration (daysFromCivil 2023 1 1) (addDate (daysFromCivil 2023 1 1) 1 0 0) = "1y" := by
  have h := spec_c8_exact_year.1 (daysFromCivil 2023 1 1) 1 (by norm_num)
  exact h.trans (by decide)

lemma getCountdowns_mem (target : Int) (p : Anniversary) (today c : Int)
    (hc : c ∈ getCountdowns target p today) :
    today < c ∧
      ((∃ d ∈ p.days, d ≠ 0 ∧ c = addDate target 0 0 (-d)) ∨
        (∃ m ∈ p.months, c = addDate target 0 (-m) 0) ∨
        (∃ y ∈ p.years, c = addDate target (-y) 0 0)) := by
  unfold getCountdowns at hc
  by_cases hg : target < today ∨ target = today
  · rw [if_pos hg] at hc
    exact absurd hc (List.not_mem_nil c)
  · rw [if_neg hg] at hc
    rcases List.mem_append.mp hc with hc12 | hc3
    · rcases List.mem_append.mp hc12 with hc1 | hc2
      · obtain ⟨hmem, hpred⟩ := List.mem_filter.mp hc1
        obtain ⟨d, hdmem, hfd⟩ := List.mem_map.mp hmem
        obtain ⟨hd, hdne⟩ := List.mem_filter.mp hdmem
        refine ⟨of_decide_eq_true hpred, Or.inl ⟨d, hd, ?_, hfd.symm⟩⟩
        intro hc0
        rw [hc0] at hdne
        simp at hdne
      · obtain ⟨hmem, hpred⟩ := List.mem_filter.mp hc2
        obtain ⟨m, hmmem, hfm⟩ := List.mem_map.mp hmem
        exact ⟨of_decide_eq_true hpred, Or.inr (Or.inl ⟨m, hmmem, hfm.symm⟩)⟩
    · obtain ⟨hmem, hpred⟩ := List.mem_filter.mp hc3
      obtain ⟨y, hymem, hfy⟩ := List.mem_map.mp hmem
      exact ⟨of_decide_eq_true hpred, Or.inr (Or.inr ⟨y, hymem, hfy.symm⟩)⟩

/-- Claim C7: getCountdowns returns nothing unless the anchor is strictly after now,
skips the zero day offset, returns only candidates equal to the anchor minus a
configured offset that are strictly after now, and with positive offsets every
candidate lies strictly between now and the anchor. -/
theorem spec_c7_countdown_invariants :
    ∀ (target : Int) (p : Anniversary) (today : Int),
      (¬ today < target → getCountdowns target p today = []) ∧
      (∀ c ∈ getCountdowns target p today,
        today < c ∧
          ((∃ d ∈ p.days, d ≠ 0 ∧ c = addDate target 0 0 (-d)) ∨
            (∃ m ∈ p.months, c = addDate target 0 (-m) 0) ∨
            (∃ y ∈ p.years, c = addDate target (-y) 0 0))) ∧
      ((∀ d ∈ p.days, 0 ≤ d) → (∀ m ∈ p.months, 0 < m) → (∀ y ∈ p.years, 0 < y) →
        ∀ c ∈ getCountdowns target p today, today < c ∧ c < target) := by
  intro target p today
  refine ⟨?_, fun c hc => getCountdowns_mem target p today c hc, ?_⟩
  · intro h
    unfold getCountdowns
    rw [if_pos (by omega)]
  · intro hd hm hy c hc
    obtain ⟨hlt, hshape⟩ := getCountdowns_mem target p today c hc
    refine ⟨hlt, ?_⟩
    rcases hshape with ⟨d, hdm, hdne, rfl⟩ | ⟨m, hmm2, rfl⟩ | ⟨y, hym, rfl⟩
    · have hdp := hd d hdm
      rw [addDate_days_eq]
      omega
    · exact addDate_neg_months_lt target m (by have := hm m hmm2; omega)
    · exact addDate_neg_years_lt target y (by have := hy y hym; omega)

/-- Claim C7 witness: for the anchor 2024-01-01 with pattern days=[7], months=[1],
years=[1] and now 2023-12-01, the seven-days-before candidate lies strictly between
now and the anchor. -/
theorem spec_c7_witness :
    daysFromCivil 2023 12 1 < addDate (daysFromCivil 2024 1 1) 0 0 (-7) ∧
      addDate (daysFromCivil 2024 1 1) 0 0 (-7) < daysFromCivil 2024 1 1 := by
  have h := (spec_c7_countdown_invariants (daysFromCivil 2024 1 1)
      { years := [1], months := [1], days := [7] } (daysFromCivil 2023 12 1)).2.2
    (by decide) (by decide) (by decide) (addDate (daysFromCivil 2024 1 1) 0 0 (-7)) (by decide)
  exact h

/-- Claim C1 (amended): when getDuration reaches the field-wise decomposition and all
three decomposed components are positive, the result is the days-only label, because
the days-only branch of the format chain fires before the three-component fallback;
the fallback itself stays reachable with end after start when the borrow leaves a
non-positive days component, as for 2023-01-31 to 2023-03-01. -/
theorem spec_c1_amended :
    (∀ (s e : Int), reachesDecomposition s e →
      0 < (decompose s e).1 → 0 < (decompose s e).2.1 → 0 < (decompose s e).2.2 →
      getDuration s e = toString (decompose s e).2.2 ++ "d") ∧
    decompose (daysFromCivil 2023 1 31) (daysFromCivil 2023 3 1) = (0, 1, -2) ∧
    getDuration (daysFromCivil 2023 1 31) (daysFromCivil 2023 3 1) = "0y 1m -2d" := by
  refine ⟨?_, by decide, by decide⟩
  intro s e hr hy hm hd
  obtain ⟨h1, h2, h3, h4⟩ := hr
  unfold getDuration
  rw [if_neg h1, h2, h3, h4]
  show formatYMD (decompose s e).1 (decompose s e).2.1 (decompose s e).2.2 =
    toString (decompose s e).2.2 ++ "d"
  unfold formatYMD
  rw [if_neg (by omega), if_neg (by omega), if_neg (by omega), if_neg (by omega),
    if_neg (by omega), if_pos hd]

/-- Claim C1 counterexample: getDuration(2020-01-01, 2021-02-02) reaches the
decomposition with components (1, 1, 1) yet returns the days-only label 1d, not the
claimed three-component fallback 1y 1m 1d. -/
theorem spec_c1_counterexample :
    reachesDecomposition (daysFromCivil 2020 1 1) (daysFromCivil 2021 2 2) ∧
    decompose (daysFromCivil 2020 1 1) (daysFromCivil 2021 2 2) = (1, 1, 1) ∧
    getDuration (daysFromCivil 2020 1 1) (daysFromCivil 2021 2 2) = "1d" ∧
    getDuration (daysFromCivil 2020 1 1) (daysFromCivil 2021 2 2) ≠ "1y 1m 1d" := by
  refine ⟨by decide, by decide, by decide, by decide⟩

/-- Claim C1 witness: the amended theorem applied to the pair (2020-01-01,
2021-02-02) evaluates to the days-only label 1d. -/
theorem spec_c1_witness :
    getDuration (daysFromCivil 2020 1 1) (daysFromCivil 2021 2 2) = "1d" := by
  have h := spec_c1_amended.1 (daysFromCivil 2020 1 1) (daysFromCivil 2021 2 2)
    (by decide) (by decide) (by decide) (by decide)
  exact h.trans (by decide)

lemma lastChar_append_right (a s : String) (c : Char) (h : lastChar s = some c) :
    lastChar (a ++ s) = some c := by
  unfold lastChar at h ⊢
  rw [String.data_append, List.getLast?_append, h]
  rfl

lemma ne_of_lastChar {s t : String} {a b : Char} (h1 : lastChar s = some a)
    (h2 : lastChar t = some b) (hne : a ≠ b) : s ≠ t := by
  intro hc
  rw [hc, h2] at h1
  exact hne (Option.some.inj h1).symm

lemma lastChar_y (x : String) : lastChar (x ++ "y") = some 'y' :=
  lastChar_append_right x "y" 'y' rfl

lemma lastChar_m (x : String) : lastChar (x ++ "m") = some 'm' :=
  lastChar_append_right x "m" 'm' rfl

lemma lastChar_d (x : String) : lastChar (x ++ "d") = some 'd' :=
  lastChar_append_right x "d" 'd' rfl

lemma yearBranch_lastChar (s e yc : Int) (lbl : String) (h : yearBranch s e yc = some lbl) :
    lastChar lbl = some 'y' := by
  unfold yearBranch at h
  split_ifs at h <;>
    first
      | (rw [← Option.some.inj h]; exact lastChar_y _)
      | exact Option.noConfusion h

lemma monthFmt_lastChar (M : Int) :
    lastChar (monthFmt M) = some 'y' ∨ lastChar (monthFmt M) = some 'm' := by
  unfold monthFmt
  split_ifs
  · exact Or.inl (lastChar_y _)
  · exact Or.inr (lastChar_m _)
  · exact Or.inr (lastChar_m _)

lemma durMilestone_lastChar (td : Int) (lbl : String) (h : durMilestone td = some lbl) :
    lastChar lbl = some 'd' := by
  unfold durMilestone at h
  split_ifs at h <;>
    first
      | (rw [← Option.some.inj h]; rfl)
      | exact Option.noConfusion h

lemma formatYMD_lastChar (y m d : Int) :
    lastChar (formatYMD y m d) = some 'y' ∨ lastChar (formatYMD y m d) = some 'm' ∨
      lastChar (formatYMD y m d) = some 'd' := by
  unfold formatYMD
  split_ifs
  · exact Or.inl (lastChar_y _)
  · exact Or.inr (Or.inl (lastChar_m _))
  · exact Or.inr (Or.inr (lastChar_d _))
  · exact Or.inr (Or.inl (lastChar_m _))
  · exact Or.inr (Or.inr (lastChar_d _))
  · exact Or.inr (Or.inr (lastChar_d _))
  · exact Or.inr (Or.inr (lastChar_d _))

lemma getDuration_ne_dday (s e : Int) (h : ¬ e = s) : getDuration s e ≠ "D-DAY" := by
  have hD : lastChar "D-DAY" = some 'Y' := rfl
  unfold getDuration
  rw [if_neg h]
  cases hyb : yearBranch s e (yearOf e - yearOf s) with
  | some lbl =>
    have hl := yearBranch_lastChar _ _ _ _ hyb
    show lbl ≠ "D-DAY"
    exact ne_of_lastChar hl hD (by decide)
  | none =>
    cases hmsn : monthScan s e ((yearOf e - yearOf s) * 12 + 12) with
    | some M =>
      show monthFmt M ≠ "D-DAY"
      rcases monthFmt_lastChar M with hl | hl <;> exact ne_of_lastChar hl hD (by decide)
    | none =>
      cases hdm : durMilestone (totalDaysGo s e) with
      | some lbl =>
        have hl := durMilestone_lastChar _ _ hdm
        show lbl ≠ "D-DAY"
        exact ne_of_lastChar hl hD (by decide)
      | none =>
        show formatYMD (decompose s e).1 (decompose s e).2.1 (decompose s e).2.2 ≠ "D-DAY"
        rcases formatYMD_lastChar (decompose s e).1 (decompose s e).2.1 (decompose s e).2.2
          with hl | hl | hl <;> exact ne_of_lastChar hl hD (by decide)

/-- Claim C10 (amended): getDuration is total, returns D-DAY exactly when the two
dates are equal, and on the claim's inverted example returns the fallback with a
negative year; but an inverted pair does not always reach the fallback. -/
theorem spec_c10_inverted :
    (∀ n : Int, getDuration n n = "D-DAY") ∧
    (∀ s e : Int, e ≠ s → getDuration s e ≠ "D-DAY") ∧
    getDuration (daysFromCivil 2024 1 1) (daysFromCivil 2023 1 1) = "-1y 0m 0d" := by
  refine ⟨?_, fun s e h => getDuration_ne_dday s e h, by decide⟩
  intro n
  unfold getDuration
  rw [if_pos rfl]

/-- Claim C10 counterexample: for end strictly before start, getDuration(2024-01-01,
2023-06-01) returns the months-only label 5m, not the three-component fallback. -/
theorem spec_c10_counterexample :
    daysFromCivil 2023 6 1 < daysFromCivil 2024 1 1 ∧
    getDuration (daysFromCivil 2024 1 1) (daysFromCivil 2023 6 1) = "5m" ∧
    getDuration (daysFromCivil 2024 1 1) (daysFromCivil 2023 6 1) ≠ "-1y 0m 0d" := by
  refine ⟨by decide, by decide, by decide⟩

/-- Claim C10 witness: getDuration never returns D-DAY on a one-day interval. -/
theorem spec_c10_witness :
    getDuration (daysFromCivil 2020 1 1) (daysFromCivil 2020 1 2) ≠ "D-DAY" :=
  spec_c10_inverted.2.1 (daysFromCivil 2020 1 1) (daysFromCivil 2020 1 2) (by decide)

lemma processEvents_const_clock (patterns : Anniversary) (now : Int) (cy : Int)
    (evs : List Event) :
    ∀ i, processEvents patterns (fun _ => now) cy evs i =
      processEventsSingleClock patterns now cy evs := by
  induction evs with
  | nil => intro i; rfl
  | cons e rest ih =>
    intro i
    cases hdq : e.date with
    | some d =>
      simp only [processEvents, processEventsSingleClock, hdq]
      by_cases hf : now < d
      · rw [if_pos hf, if_pos hf, ih (i + 2)]
      · rw [if_neg hf, if_neg hf, ih (i + 1)]
    | none =>
      cases hmq : e.monthDay with
      | some md =>
        simp only [processEvents, processEventsSingleClock, hdq, hmq]
        rw [ih i]
      | none =>
        simp only [processEvents, processEventsSingleClock, hdq, hmq]
        exact ih i

/-- Claim C4 (amended): when every wall-clock sample returns the same value the
pipeline coincides with a single-clock pipeline, so a run with a constant clock is a
deterministic function of the configuration and that clock value; the code itself
re-samples the clock at each use. -/
theorem spec_c4_single_clock :
    ∀ (config : Config) (now : Int),
      generateICal config (fun _ => now) = generateICalSingleClock config now := by
  intro config now
  unfold generateICal generateICalSingleClock
  exact processEvents_const_clock _ _ _ _ 2

/-- Claim C4 counterexample: two runs whose clocks agree at the future-date check but
differ at the sample taken inside getCountdowns produce different outputs, so the
pipeline does not use a single once-sampled now. -/
theorem spec_c4_counterexample :
    ((fun _ => daysFromCivil 2029 12 25 : Nat → Int) 2 =
      (fun i => if i = 3 then daysFromCivil 2030 1 1 else daysFromCivil 2029 12 25 :
        Nat → Int) 2) ∧
    generateICal c4Config (fun _ => daysFromCivil 2029 12 25) ≠
      generateICal c4Config
        (fun i => if i = 3 then daysFromCivil 2030 1 1 else daysFromCivil 2029 12 25) := by
  refine ⟨rfl, by decide⟩

/-- Claim C3 (amended): events carry no suppression flags; for a future-dated event
the pipeline always runs the countdown pass followed by the anniversary pass, for a
non-future event it always runs the anniversary pass, and the anniversary pass always
emits one entry per configured offset. -/
theorem spec_c3_both_passes :
    ∀ (patterns : Anniversary) (clock : Nat → Int) (cy : Int) (e : Event)
      (rest : List Event) (i : Nat) (d : Int), e.date = some d →
      (clock i < d →
        processEvents patterns clock cy (e :: rest) i =
          ((getCountdowns d patterns (clock (i + 1))).map
              (fun c => countdownEntry e.title e.description c d)) ++
            ((getAnniversaries d patterns).map
              (fun a => annivEntry e.title e.description d a)) ++
            processEvents patterns clock cy rest (i + 2)) ∧
      (¬ clock i < d →
        processEvents patterns clock cy (e :: rest) i =
          ((getAnniversaries d patterns).map
              (fun a => annivEntry e.title e.description d a)) ++
            processEvents patterns clock cy rest (i + 1)) ∧
      (getAnniversaries d patterns).length =
        patterns.days.length + patterns.months.length + patterns.years.length := by
  intro patterns clock cy e rest i d hdq
  refine ⟨?_, ?_, ?_⟩
  · intro hf
    simp only [processEvents, hdq]
    rw [if_pos hf]
  · intro hf
    simp only [processEvents, hdq]
    rw [if_neg hf]
  · simp only [getAnniversaries, List.length_append, List.length_map]

/-- Claim C3 counterexample: a future-dated event produces both a countdown entry and
anniversary entries in one run; no event field can suppress either pass, since Event
consists only of date, month-day, title and description. -/
theorem spec_c3_counterexample :
    generateICal c3Config (fun _ => daysFromCivil 2029 12 25) =
      [countdownEntry "T" "" (daysFromCivil 2029 12 31) (daysFromCivil 2030 1 1),
       annivEntry "T" "" (daysFromCivil 2030 1 1) (daysFromCivil 2030 1 2),
       annivEntry "T" "" (daysFromCivil 2030 1 1) (daysFromCivil 2030 2 1),
       annivEntry "T" "" (daysFromCivil 2030 1 1) (daysFromCivil 2031 1 1)] := by
  decide

/-- Claim C3 witness: the amended theorem applied to a concrete future event. -/
theorem spec_c3_witness :
    processEvents { years := [1], months := [1], days := [1] }
        (fun _ => daysFromCivil 2029 12 25) 2029 [c3Event] 2 =
      ((getCountdowns (daysFromCivil 2030 1 1) { years := [1], months := [1], days := [1] }
            (daysFromCivil 2029 12 25)).map
          (fun c => countdownEntry "T" "" c (daysFromCivil 2030 1 1))) ++
        ((getAnniversaries (daysFromCivil 2030 1 1)
              { years := [1], months := [1], days := [1] }).map
          (fun a => annivEntry "T" "" (daysFromCivil 2030 1 1) a)) ++
        processEvents { years := [1], months := [1], days := [1] }
          (fun _ => daysFromCivil 2029 12 25) 2029 [] 4 := by
  have h := (spec_c3_both_passes { years := [1], months := [1], days := [1] }
      (fun _ => daysFromCivil 2029 12 25) 2029 c3Event [] 2 (daysFromCivil 2030 1 1)
      (by decide)).1 (by decide)
  exact h

/-- Claim C9 (amended): a month-day-only event expands to exactly three occurrences,
one per year from currentYear-1 to currentYear+1, whose summaries carry no duration
label; the calendar date of each occurrence is the normalization of (year, month,
day), which preserves the event's month and day exactly when that day exists in the
target year. -/
theorem spec_c9_recurring :
    ∀ (patterns : Anniversary) (clock : Nat → Int) (cy : Int) (e : Event)
      (rest : List Event) (i : Nat) (m d : Int),
      e.date = none → e.monthDay = some (m, d) →
      (processEvents patterns clock cy (e :: rest) i =
        [recurringEntry e.title e.description (cy + -1) m d,
         recurringEntry e.title e.description (cy + 0) m d,
         recurringEntry e.title e.description (cy + 1) m d] ++
          processEvents patterns clock cy rest i) ∧
      (∀ (title desc : String) (y : Int),
        (recurringEntry title desc y m d).summary = title ++ " 💚") ∧
      (∀ y : Int, 1 ≤ m → m ≤ 12 → 1 ≤ d → d ≤ monthLength y m →
        yearOf (daysFromCivil y m d) = y ∧ monthOf (daysFromCivil y m d) = m ∧
          dayOf (daysFromCivil y m d) = d) := by
  intro patterns clock cy e rest i m d hdq hmq
  refine ⟨?_, fun title desc y => rfl,
    fun y h1 h2 h3 h4 => civil_roundtrip y m d h1 h2 h3 h4⟩
  simp only [processEvents, hdq, hmq, List.map]

/-- Claim C9 counterexample: a Feb 29 month-day event in the non-leap years 2022 and
2023 is emitted on March 1, not on the event's month and day. -/
theorem spec_c9_counterexample :
    generateICal c9Config (fun _ => daysFromCivil 2023 6 15) =
      [recurringEntry "Leap" "" 2022 2 29, recurringEntry "Leap" "" 2023 2 29,
       recurringEntry "Leap" "" 2024 2 29] ∧
    (recurringEntry "Leap" "" 2022 2 29).dtstart = "20220301" ∧
    (recurringEntry "Leap" "" 2024 2 29).dtstart = "20240229" ∧
    (recurringEntry "Leap" "" 2022 2 29).uid = "vanitycal-recurring-20220229" := by
  refine ⟨by decide, by decide, by decide, by decide⟩

/-- Claim C9 witness: the amended theorem applied to the concrete Feb 29 event. -/
theorem spec_c9_witness :
    processEvents { years := [1], months := [1], days := [1] } (fun _ => 0) 2023
        [c9Event] 5 =
      [recurringEntry "Leap" "" (2023 + -1) 2 29, recurringEntry "Leap" "" (2023 + 0) 2 29,
       recurringEntry "Leap" "" (2023 + 1) 2 29] ++
        processEvents { years := [1], months := [1], days := [1] } (fun _ => 0) 2023 [] 5 := by
  exact (spec_c9_recurring { years := [1], months := [1], days := [1] } (fun _ => 0) 2023
    c9Event [] 5 2 29 (by decide) (by decide)).1

lemma pad4_eval (y : Int) (h0 : 0 ≤ y) (h1 : y < 10000) :
    pad4 y = String.mk [digitChar (y / 1000), digitChar (y / 100 % 10),
      digitChar (y / 10 % 10), digitChar (y % 10)] := by
  unfold pad4 pad4Pos
  rw [if_neg (by omega), if_pos h1]

lemma pad2_eval (x : Int) (h0 : 0 ≤ x) (h1 : x < 100) :
    pad2 x = String.mk [digitChar (x / 10), digitChar (x % 10)] := by
  unfold pad2
  rw [if_pos ⟨h0, h1⟩]

lemma digitChar_inj (a b : Int) (ha0 : 0 ≤ a) (ha9 : a ≤ 9) (hb0 : 0 ≤ b) (hb9 : b ≤ 9)
    (h : digitChar a = digitChar b) : a = b := by
  interval_cases a <;> interval_cases b <;> first | rfl | exact absurd h (by decide)

lemma formatYYYYMMDD_inj (n n2 : Int) (h1 : 1 ≤ yearOf n) (h2 : yearOf n ≤ 9999)
    (h3 : 1 ≤ yearOf n2) (h4 : yearOf n2 ≤ 9999)
    (heq : formatYYYYMMDD n = formatYYYYMMDD n2) : n = n2 := by
  obtain ⟨g1, g2, g3, g4, g5⟩ := dayNumber_roundtrip n
  obtain ⟨k1, k2, k3, k4, k5⟩ := dayNumber_roundtrip n2
  have hml1 := monthLength_bounds (yearOf n) (monthOf n)
  have hml2 := monthLength_bounds (yearOf n2) (monthOf n2)
  unfold formatYYYYMMDD at heq
  rw [pad4_eval (yearOf n) (by omega) (by omega), pad4_eval (yearOf n2) (by omega) (by omega),
    pad2_eval (monthOf n) (by omega) (by omega), pad2_eval (dayOf n) (by omega) (by omega),
    pad2_eval (monthOf n2) (by omega) (by omega),
    pad2_eval (dayOf n2) (by omega) (by omega)] at heq
  have heq2 : String.mk [digitChar (yearOf n / 1000), digitChar (yearOf n / 100 % 10),
      digitChar (yearOf n / 10 % 10), digitChar (yearOf n % 10),
      digitChar (monthOf n / 10), digitChar (monthOf n % 10),
      digitChar (dayOf n / 10), digitChar (dayOf n % 10)] =
    String.mk [digitChar (yearOf n2 / 1000), digitChar (yearOf n2 / 100 % 10),
      digitChar (yearOf n2 / 10 % 10), digitChar (yearOf n2 % 10),
      digitChar (monthOf n2 / 10), digitChar (monthOf n2 % 10),
      digitChar (dayOf n2 / 10), digitChar (dayOf n2 % 10)] := heq
  have hlist := congrArg String.data heq2
  simp only [List.cons.injEq, and_true] at hlist
  obtain ⟨e1, e2, e3, e4, e5, e6, e7, e8⟩ := hlist
  have hy : yearOf n = yearOf n2 := by
    have q1 := digitChar_inj _ _ (by omega) (by omega) (by omega) (by omega) e1
    have q2 := digitChar_inj _ _ (by omega) (by omega) (by omega) (by omega) e2
    have q3 := digitChar_inj _ _ (by omega) (by omega) (by omega) (by omega) e3
    have q4 := digitChar_inj _ _ (by omega) (by omega) (by omega) (by omega) e4
    omega
  have hm : monthOf n = monthOf n2 := by
    have q5 := digitChar_inj _ _ (by omega) (by omega) (by omega) (by omega) e5
    have q6 := digitChar_inj _ _ (by omega) (by omega) (by omega) (by omega) e6
    omega
  have hd : dayOf n = dayOf n2 := by
    have q7 := digitChar_inj _ _ (by omega) (by omega) (by omega) (by omega) e7
    have q8 := digitChar_inj _ _ (by omega) (by omega) (by omega) (by omega) e8
    omega
  rw [← g5, ← k5, hy, hm, hd]

/-- Claim C5 (amended): identifiers are a deterministic function of the occurrence
date alone with a per-pass prefix, never of the event, and within the anniversary
pass occurrence dates with four-digit years map to identifiers injectively; two
events sharing an occurrence date therefore collide. -/
theorem spec_c5_identifiers :
    (∀ (t1 d1 t2 d2 : String) (date1 date2 occ : Int),
        (annivEntry t1 d1 date1 occ).uid = (annivEntry t2 d2 date2 occ).uid) ∧
    (∀ n n2 : Int, 1 ≤ yearOf n → yearOf n ≤ 9999 → 1 ≤ yearOf n2 → yearOf n2 ≤ 9999 →
        formatYYYYMMDD n = formatYYYYMMDD n2 → n = n2) :=
  ⟨fun _ _ _ _ _ _ _ => rfl, formatYYYYMMDD_inj⟩

/-- Claim C5 counterexample: two distinct events with the same anchor date produce
occurrences with identical identifiers but different summaries, so distinct (event,
occurrence) pairs do not get distinct identifiers. -/
theorem spec_c5_counterexample :
    ((generateICal c5Config (fun _ => daysFromCivil 2024 6 1)).map (fun ev => ev.uid)).get? 0 =
      ((generateICal c5Config (fun _ => daysFromCivil 2024 6 1)).map
        (fun ev => ev.uid)).get? 3 ∧
    ((generateICal c5Config (fun _ => daysFromCivil 2024 6 1)).map
        (fun ev => ev.summary)).get? 0 ≠
      ((generateICal c5Config (fun _ => daysFromCivil 2024 6 1)).map
        (fun ev => ev.summary)).get? 3 := by
  refine ⟨by decide, by decide⟩

/-- Claim C5 witness: identifier injectivity applied to the same date written two
ways. -/
theorem spec_c5_witness :
    daysFromCivil 2023 1 1 = addDate (daysFromCivil 2023 1 1) 0 0 0 :=
  spec_c5_identifiers.2 (daysFromCivil 2023 1 1) (addDate (daysFromCivil 2023 1 1) 0 0 0)
    (by decide) (by decide) (by decide) (by decide) (by decide)
